import Mathlib

/-!
Shallow embedding of the phone-number registration service
(`src/session.rs`, `src/grpc/mod.rs`, `src/ldap_validation.rs`,
`src/auth/ldap.rs`).

Wall-clock instants (`SystemTime`) are modelled as natural numbers of
seconds; every handler takes the current instant `now` explicitly.
Randomness (`Uuid::new_v4`, the 6-digit code generator) is modelled by
passing the freshly generated value as an explicit argument.  The session
map (`HashMap<Vec<u8>, SessionData>` behind a lock) is modelled as a
function from session ids to `Option SessionData`.
-/

namespace Reg

/-- `SystemTime::duration_since` in whole seconds: `Ok (now - earlier)`
when `earlier ≤ now`, `Err` (here `none`) otherwise. -/
def duration_since (now earlier : Nat) : Option Nat :=
  if earlier ≤ now then some (now - earlier) else none

/-- `RegistrationSessionMetadata` message (fields as used by the code). -/
structure RegistrationSessionMetadata where
  session_id : List Nat
  verified : Bool
  e164 : Nat
  may_request_sms : Bool
  next_sms_seconds : Nat
  may_request_voice_call : Bool
  next_voice_call_seconds : Nat
  may_check_code : Bool
  next_code_check_seconds : Nat
  expiration_seconds : Nat
deriving DecidableEq, Repr

/-- `SessionData` from `src/session.rs`. -/
structure SessionData where
  metadata : RegistrationSessionMetadata
  created_at : Nat
  last_sms_at : Option Nat
  last_voice_call_at : Option Nat
  verification_attempts : Nat
  verification_code : Option String
deriving DecidableEq, Repr

/-- `SessionData::new` (`created_at = SystemTime::now()` becomes the
explicit `now` argument). -/
def SessionData.new (metadata : RegistrationSessionMetadata) (now : Nat) :
    SessionData :=
  { metadata := metadata
    created_at := now
    last_sms_at := none
    last_voice_call_at := none
    verification_attempts := 0
    verification_code := none }

/-- `SessionData::is_expired`. -/
def SessionData.is_expired (s : SessionData) (now : Nat) : Bool :=
  match duration_since now s.created_at with
  | some elapsed => decide (elapsed ≥ s.metadata.expiration_seconds)
  | none => true

/-- The first block of `SessionData::update_timing` (SMS timing): allow
SMS every 60 seconds after the last one. -/
def SessionData.update_sms_timing (s : SessionData) (now : Nat) :
    SessionData :=
  match s.last_sms_at with
  | some last_sms =>
    match duration_since now last_sms with
    | some elapsed =>
      let may := decide (elapsed ≥ 60)
      { s with metadata :=
          { s.metadata with
              may_request_sms := may
              next_sms_seconds := if may then 0 else 60 - elapsed } }
    | none => s
  | none => s

/-- The second block of `SessionData::update_timing` (voice timing):
allow voice calls every 300 seconds after the last one. -/
def SessionData.update_voice_timing (s : SessionData) (now : Nat) :
    SessionData :=
  match s.last_voice_call_at with
  | some last_call =>
    match duration_since now last_call with
    | some elapsed =>
      let may := decide (elapsed ≥ 300)
      { s with metadata :=
          { s.metadata with
              may_request_voice_call := may
              next_voice_call_seconds := if may then 0 else 300 - elapsed } }
    | none => s
  | none => s

/-- The third block of `SessionData::update_timing` (code-check timing):
up to 3 attempts, a 300-second lockout value afterwards; only touched
once at least one attempt has been made. -/
def SessionData.update_check_timing (s : SessionData) : SessionData :=
  if s.verification_attempts > 0 then
    let may := decide (s.verification_attempts < 3)
    { s with metadata :=
        { s.metadata with
            may_check_code := may
            next_code_check_seconds := if may then 0 else 300 } }
  else s

/-- `SessionData::update_timing`: the three blocks in source order. -/
def SessionData.update_timing (s : SessionData) (now : Nat) : SessionData :=
  ((s.update_sms_timing now).update_voice_timing now).update_check_timing

/-- The session map of `SessionStore` (a `HashMap` keyed by the raw
session-id bytes), as a function from ids to optional session data. -/
def SessionStore : Type := List Nat → Option SessionData

/-- The empty store (`SessionStore::new`). -/
def SessionStore.empty : SessionStore := fun _ => none

/-- `SessionStore::create_session`; the random `Uuid::new_v4` id is the
explicit `session_id` argument, `SystemTime::now()` is `now`. -/
def SessionStore.create_session (st : SessionStore) (session_id : List Nat)
    (e164 : Nat) (timeout : Nat) (now : Nat) :
    RegistrationSessionMetadata × SessionStore :=
  let metadata : RegistrationSessionMetadata :=
    { session_id := session_id
      verified := false
      e164 := e164
      may_request_sms := true
      next_sms_seconds := 0
      may_request_voice_call := true
      next_voice_call_seconds := 0
      may_check_code := false
      next_code_check_seconds := 0
      expiration_seconds := timeout }
  let session := SessionData.new metadata now
  (metadata, fun k => if k = session_id then some session else st k)

/-- `SessionStore::get_session`. -/
def SessionStore.get_session (st : SessionStore) (session_id : List Nat) :
    Option SessionData :=
  st session_id

/-- `SessionStore::update_session`: replace the stored data when the id
is present, return `false` and leave the map untouched otherwise. -/
def SessionStore.update_session (st : SessionStore) (session_id : List Nat)
    (data : SessionData) : Bool × SessionStore :=
  match st session_id with
  | some _ => (true, fun k => if k = session_id then some data else st k)
  | none => (false, st)

/-- `SessionStore::cleanup_expired` (`retain(|_, s| !s.is_expired())`). -/
def SessionStore.cleanup_expired (st : SessionStore) (now : Nat) :
    SessionStore :=
  fun k =>
    match st k with
    | some s => if s.is_expired now then none else some s
    | none => none

/-! ### The gRPC handlers of `src/grpc/mod.rs`

Each handler is the body of the corresponding `RegistrationService`
method, from the point where the request has been decoded.  A handler
returns its wire response together with the session store it leaves
behind.  `SystemTime::now()` is one explicit instant `now` per request;
the freshly generated 6-digit code of `generate_verification_code` is the
explicit `fresh_code` argument of `send_verification_code`. -/

/-- `u64::from_str`: an optional leading `+`, then one or more ASCII
digits, value below `2^64`. -/
def parse_u64 (s : List Char) : Option Nat :=
  let digits := match s with
    | '+' :: rest => rest
    | _ => s
  if digits = [] then none
  else if digits.all Char.isDigit then
    let v := digits.foldl (fun acc c => acc * 10 + (c.toNat - 48)) 0
    if v < 2 ^ 64 then some v else none
  else none

/-- `CreateRegistrationSessionResponse` (success arm only; the error arm
carries a `CreateRegistrationSessionError`, unused by these claims).  The
`Err(Status)` exits of the handler are the `Except.error` side. -/
inductive CreateSessionResp where
  | sessionMetadata (m : RegistrationSessionMetadata)
deriving DecidableEq, Repr

/-- `create_session`, from the point where `EntraIdClient::authenticate_user`
has returned `Ok(phone_number)`: parse the phone as `u64`, mint a session,
answer with its metadata.  A parse failure is `Status::internal`. -/
def grpc_create_session (st : SessionStore) (phone_number : String)
    (session_timeout : Nat) (fresh_id : List Nat) (now : Nat) :
    Except String CreateSessionResp × SessionStore :=
  match parse_u64 phone_number.data with
  | none => (Except.error "Failed to parse phone number", st)
  | some e164 =>
    let r := st.create_session fresh_id e164 session_timeout now
    (Except.ok (CreateSessionResp.sessionMetadata r.1), r.2)

/-- `SendVerificationCodeErrorType`. -/
inductive SendCodeErrType where
  | sessionNotFound
  | rateLimited
  | transportNotAllowed
deriving DecidableEq, Repr

/-- `SendVerificationCodeError`. -/
structure SendCodeErr where
  error_type : SendCodeErrType
  may_retry : Bool
  retry_after_seconds : Nat
deriving DecidableEq, Repr

/-- `SendVerificationCodeResponse`. -/
inductive SendCodeResp where
  | sessionMetadata (m : RegistrationSessionMetadata)
  | error (e : SendCodeErr)
deriving DecidableEq, Repr

/-- `send_verification_code`.  `transport` is the raw `i32` of the
request (`0` = SMS, `1` = voice, anything else hits the `_` arm). -/
def send_verification_code (st : SessionStore) (session_id : List Nat)
    (transport : Int) (fresh_code : String) (now : Nat) :
    SendCodeResp × SessionStore :=
  let st := st.cleanup_expired now
  match st.get_session session_id with
  | none =>
    (SendCodeResp.error
      { error_type := SendCodeErrType.sessionNotFound
        may_retry := false, retry_after_seconds := 0 }, st)
  | some session0 =>
    if session0.is_expired now then
      (SendCodeResp.error
        { error_type := SendCodeErrType.sessionNotFound
          may_retry := false, retry_after_seconds := 0 }, st)
    else
      let session := session0.update_timing now
      if transport = 0 then
        if !session.metadata.may_request_sms then
          (SendCodeResp.error
            { error_type := SendCodeErrType.rateLimited
              may_retry := true
              retry_after_seconds := session.metadata.next_sms_seconds }, st)
        else
          let session := { session with last_sms_at := some now }
          let session :=
            { session with
                verification_code := some fresh_code
                metadata := { session.metadata with
                    may_check_code := true
                    next_code_check_seconds := 0 } }
          let st := (st.update_session session_id session).2
          (SendCodeResp.sessionMetadata session.metadata, st)
      else if transport = 1 then
        if !session.metadata.may_request_voice_call then
          (SendCodeResp.error
            { error_type := SendCodeErrType.rateLimited
              may_retry := true
              retry_after_seconds := session.metadata.next_voice_call_seconds },
            st)
        else
          let session := { session with last_voice_call_at := some now }
          let session :=
            { session with
                verification_code := some fresh_code
                metadata := { session.metadata with
                    may_check_code := true
                    next_code_check_seconds := 0 } }
          let st := (st.update_session session_id session).2
          (SendCodeResp.sessionMetadata session.metadata, st)
      else
        (SendCodeResp.error
          { error_type := SendCodeErrType.transportNotAllowed
            may_retry := false, retry_after_seconds := 0 }, st)

/-- `CheckVerificationCodeErrorType`. -/
inductive CheckCodeErrType where
  | sessionNotFound
  | rateLimited
  | noCodeSent
deriving DecidableEq, Repr

/-- `CheckVerificationCodeError`. -/
structure CheckCodeErr where
  error_type : CheckCodeErrType
  may_retry : Bool
  retry_after_seconds : Nat
deriving DecidableEq, Repr

/-- `CheckVerificationCodeResponse`. -/
inductive CheckCodeResp where
  | sessionMetadata (m : RegistrationSessionMetadata)
  | error (e : CheckCodeErr)
deriving DecidableEq, Repr

/-- `check_verification_code`.  The `+= 1` on the `u32` attempt counter
keeps the `% 2^32` wrap-around of the machine integer. -/
def check_verification_code (st : SessionStore) (session_id : List Nat)
    (verification_code : String) (now : Nat) :
    CheckCodeResp × SessionStore :=
  let st := st.cleanup_expired now
  match st.get_session session_id with
  | none =>
    (CheckCodeResp.error
      { error_type := CheckCodeErrType.sessionNotFound
        may_retry := false, retry_after_seconds := 0 }, st)
  | some session0 =>
    if session0.is_expired now then
      (CheckCodeResp.error
        { error_type := CheckCodeErrType.sessionNotFound
          may_retry := false, retry_after_seconds := 0 }, st)
    else
      let session := session0.update_timing now
      if !session.metadata.may_check_code then
        (CheckCodeResp.error
          { error_type := CheckCodeErrType.rateLimited
            may_retry := true
            retry_after_seconds := session.metadata.next_code_check_seconds },
          st)
      else
        match session.verification_code with
        | some stored_code =>
          if verification_code = stored_code then
            let session :=
              { session with metadata :=
                  { session.metadata with verified := true } }
            let st := (st.update_session session_id session).2
            (CheckCodeResp.sessionMetadata session.metadata, st)
          else
            let session :=
              { session with verification_attempts :=
                  (session.verification_attempts + 1) % 2 ^ 32 }
            let session := session.update_timing now
            let st := (st.update_session session_id session).2
            (CheckCodeResp.sessionMetadata session.metadata, st)
        | none =>
          (CheckCodeResp.error
            { error_type := CheckCodeErrType.noCodeSent
              may_retry := true, retry_after_seconds := 0 }, st)

/-- `get_session_metadata`: either the session's metadata or the
`Status::not_found` exit with its message. -/
inductive GetMetadataResp where
  | sessionMetadata (m : RegistrationSessionMetadata)
  | notFound (msg : String)
deriving DecidableEq, Repr

/-- `get_session_metadata`. -/
def get_session_metadata (st : SessionStore) (session_id : List Nat)
    (now : Nat) : GetMetadataResp × SessionStore :=
  let st := st.cleanup_expired now
  match st.get_session session_id with
  | none => (GetMetadataResp.notFound "Session not found", st)
  | some session0 =>
    if session0.is_expired now then
      (GetMetadataResp.notFound "Session expired", st)
    else
      let session := session0.update_timing now
      let st := (st.update_session session_id session).2
      (GetMetadataResp.sessionMetadata session.metadata, st)

/-! ### The LDAP directory authenticator (`src/auth/ldap.rs`) and the
secondary validation surface (`src/ldap_validation.rs`) -/

/-- Rust `str::replace` with a single-character pattern, on the
character list of the string: every occurrence of `c` becomes `r`. -/
def replaceChar (c : Char) (r : List Char) : List Char → List Char
  | [] => []
  | x :: xs =>
    if x = c then r ++ replaceChar c r xs else x :: replaceChar c r xs

/-- `LdapClient::escape_ldap_value`: the six chained `replace` calls, in
source order. -/
def escape_ldap_value (value : List Char) : List Char :=
  replaceChar '/' ['\\', '2', 'f']
    (replaceChar (Char.ofNat 0) ['\\', '0', '0']
      (replaceChar ')' ['\\', '2', '9']
        (replaceChar '(' ['\\', '2', '8']
          (replaceChar '*' ['\\', '2', 'a']
            (replaceChar '\\' ['\\', '5', 'c'] value)))))

/-- The username cleanup at the head of `LdapClient::find_user`: when the
input contains `@`, keep `username.split('@').next()`, i.e. everything
before the first `@`; otherwise keep the input. -/
def find_user_clean_username (username : List Char) : List Char :=
  if username.contains '@' then username.takeWhile (fun c => c ≠ '@')
  else username

/-- The LDAP search filter built by `find_user`:
`format!("...", username_attribute, escaped_username)` producing
`(attr=value)`. -/
def find_user_filter (username_attribute : List Char)
    (username : List Char) : List Char :=
  '(' :: (username_attribute ++
    '=' :: (escape_ldap_value (find_user_clean_username username) ++ [')']))

/-- `auth::ldap::Error` (the payload of `Ldap(Ldap3Error)` is kept as its
display string). -/
inductive LdapError where
  | ldap (e : String)
  | userNotFound (s : String)
  | phoneNumberNotFound (s : String)
  | phoneNumberEmpty
  | authenticationFailed
  | serverError (s : String)
deriving DecidableEq, Repr

/-- The `Display` rendering of `auth::ldap::Error` given by its
`#[error("...")]` attributes. -/
def LdapError.display : LdapError → String
  | LdapError.ldap e => "LDAP error: " ++ e
  | LdapError.userNotFound s => "User not found: " ++ s
  | LdapError.phoneNumberNotFound s =>
      "Phone number not found in attribute: " ++ s
  | LdapError.phoneNumberEmpty => "Phone number is empty"
  | LdapError.authenticationFailed => "Authentication failed"
  | LdapError.serverError s => "Server error: " ++ s

/-- `ValidateCredentialsError` (the numeric `error_type` literal written
by the handler, plus the message). -/
structure ValidateCredentialsError where
  error_type : Nat
  message : String
deriving DecidableEq, Repr

/-- `validate_credentials_response::Result`. -/
inductive ValidateCredentialsResult where
  | phoneNumber (s : String)
  | error (e : ValidateCredentialsError)
deriving DecidableEq, Repr

/-- `LdapValidationServer::validate_credentials`, from the point where
`LdapClient::authenticate_user` has returned: map the outcome onto the
wire response.  `UserNotFound` becomes type `1`, `AuthenticationFailed`
type `2`, and every other error the catch-all `_` arm with type `3` and
message `"Server error: " ++ err`. -/
def validate_credentials (result : Except LdapError String) :
    ValidateCredentialsResult :=
  match result with
  | Except.ok phone_number => ValidateCredentialsResult.phoneNumber phone_number
  | Except.error err =>
    match err with
    | LdapError.userNotFound msg =>
        ValidateCredentialsResult.error { error_type := 1, message := msg }
    | LdapError.authenticationFailed =>
        ValidateCredentialsResult.error
          { error_type := 2, message := "Invalid credentials" }
    | e =>
        ValidateCredentialsResult.error
          { error_type := 3, message := "Server error: " ++ e.display }

/-! ### Basic lemmas about the session operations -/

theorem update_sms_timing_none (s : SessionData) (now : Nat)
    (h : s.last_sms_at = none) : s.update_sms_timing now = s := by
  simp [SessionData.update_sms_timing, h]

theorem update_sms_timing_err (s : SessionData) (now last : Nat)
    (h1 : s.last_sms_at = some last) (h2 : duration_since now last = none) :
    s.update_sms_timing now = s := by
  simp [SessionData.update_sms_timing, h1, h2]

theorem update_sms_timing_some (s : SessionData) (now last e : Nat)
    (h1 : s.last_sms_at = some last)
    (h2 : duration_since now last = some e) :
    s.update_sms_timing now =
      { s with metadata :=
          { s.metadata with
              may_request_sms := decide (e ≥ 60)
              next_sms_seconds :=
                if decide (e ≥ 60) = true then 0 else 60 - e } } := by
  simp only [SessionData.update_sms_timing, h1, h2]

theorem update_voice_timing_none (s : SessionData) (now : Nat)
    (h : s.last_voice_call_at = none) : s.update_voice_timing now = s := by
  simp [SessionData.update_voice_timing, h]

theorem update_voice_timing_err (s : SessionData) (now last : Nat)
    (h1 : s.last_voice_call_at = some last)
    (h2 : duration_since now last = none) :
    s.update_voice_timing now = s := by
  simp [SessionData.update_voice_timing, h1, h2]

theorem update_voice_timing_some (s : SessionData) (now last e : Nat)
    (h1 : s.last_voice_call_at = some last)
    (h2 : duration_since now last = some e) :
    s.update_voice_timing now =
      { s with metadata :=
          { s.metadata with
              may_request_voice_call := decide (e ≥ 300)
              next_voice_call_seconds :=
                if decide (e ≥ 300) = true then 0 else 300 - e } } := by
  simp only [SessionData.update_voice_timing, h1, h2]

theorem update_sms_timing_shape (s : SessionData) (now : Nat) :
    ∃ a b, s.update_sms_timing now =
      { s with metadata :=
          { s.metadata with may_request_sms := a, next_sms_seconds := b } } := by
  obtain ⟨m, ca, ls, lv, va, vc⟩ := s
  rcases ls with _ | last
  · exact ⟨m.may_request_sms, m.next_sms_seconds,
      by rw [update_sms_timing_none _ now rfl]⟩
  · rcases h2 : duration_since now last with _ | e
    · exact ⟨m.may_request_sms, m.next_sms_seconds,
        by rw [update_sms_timing_err _ now last rfl h2]⟩
    · exact ⟨_, _, update_sms_timing_some _ now last e rfl h2⟩

theorem update_voice_timing_shape (s : SessionData) (now : Nat) :
    ∃ a b, s.update_voice_timing now =
      { s with metadata :=
          { s.metadata with
              may_request_voice_call := a, next_voice_call_seconds := b } } := by
  obtain ⟨m, ca, ls, lv, va, vc⟩ := s
  rcases lv with _ | last
  · exact ⟨m.may_request_voice_call, m.next_voice_call_seconds,
      by rw [update_voice_timing_none _ now rfl]⟩
  · rcases h2 : duration_since now last with _ | e
    · exact ⟨m.may_request_voice_call, m.next_voice_call_seconds,
        by rw [update_voice_timing_err _ now last rfl h2]⟩
    · exact ⟨_, _, update_voice_timing_some _ now last e rfl h2⟩

theorem update_check_timing_zero (s : SessionData)
    (h : s.verification_attempts = 0) : s.update_check_timing = s := by
  simp [SessionData.update_check_timing, h]

theorem update_check_timing_pos (s : SessionData)
    (h : 0 < s.verification_attempts) :
    s.update_check_timing =
      { s with metadata :=
          { s.metadata with
              may_check_code := decide (s.verification_attempts < 3)
              next_code_check_seconds :=
                if decide (s.verification_attempts < 3) = true then 0
                else 300 } } := by
  simp [SessionData.update_check_timing, h]

/-- The SMS block touches only `may_request_sms` / `next_sms_seconds`. -/
theorem update_sms_timing_preserves (s : SessionData) (now : Nat) :
    (s.update_sms_timing now).created_at = s.created_at ∧
    (s.update_sms_timing now).last_sms_at = s.last_sms_at ∧
    (s.update_sms_timing now).last_voice_call_at = s.last_voice_call_at ∧
    (s.update_sms_timing now).verification_attempts =
      s.verification_attempts ∧
    (s.update_sms_timing now).verification_code = s.verification_code ∧
    (s.update_sms_timing now).metadata.verified = s.metadata.verified ∧
    (s.update_sms_timing now).metadata.expiration_seconds =
      s.metadata.expiration_seconds ∧
    (s.update_sms_timing now).metadata.e164 = s.metadata.e164 ∧
    (s.update_sms_timing now).metadata.session_id =
      s.metadata.session_id ∧
    (s.update_sms_timing now).metadata.may_check_code =
      s.metadata.may_check_code ∧
    (s.update_sms_timing now).metadata.next_code_check_seconds =
      s.metadata.next_code_check_seconds := by
  rcases h1 : s.last_sms_at with _ | last
  · rw [update_sms_timing_none s now h1]
    simp [h1]
  · rcases h2 : duration_since now last with _ | e
    · rw [update_sms_timing_err s now last h1 h2]
      simp [h1]
    · rw [update_sms_timing_some s now last e h1 h2]
      simp [h1]

/-- The voice block touches only `may_request_voice_call` /
`next_voice_call_seconds`. -/
theorem update_voice_timing_preserves (s : SessionData) (now : Nat) :
    (s.update_voice_timing now).created_at = s.created_at ∧
    (s.update_voice_timing now).last_sms_at = s.last_sms_at ∧
    (s.update_voice_timing now).last_voice_call_at =
      s.last_voice_call_at ∧
    (s.update_voice_timing now).verification_attempts =
      s.verification_attempts ∧
    (s.update_voice_timing now).verification_code = s.verification_code ∧
    (s.update_voice_timing now).metadata.verified = s.metadata.verified ∧
    (s.update_voice_timing now).metadata.expiration_seconds =
      s.metadata.expiration_seconds ∧
    (s.update_voice_timing now).metadata.e164 = s.metadata.e164 ∧
    (s.update_voice_timing now).metadata.session_id =
      s.metadata.session_id ∧
    (s.update_voice_timing now).metadata.may_check_code =
      s.metadata.may_check_code ∧
    (s.update_voice_timing now).metadata.next_code_check_seconds =
      s.metadata.next_code_check_seconds := by
  rcases h1 : s.last_voice_call_at with _ | last
  · rw [update_voice_timing_none s now h1]
    simp [h1]
  · rcases h2 : duration_since now last with _ | e
    · rw [update_voice_timing_err s now last h1 h2]
      simp [h1]
    · rw [update_voice_timing_some s now last e h1 h2]
      simp [h1]

/-- The code-check block touches only `may_check_code` /
`next_code_check_seconds`. -/
theorem update_check_timing_preserves (s : SessionData) :
    s.update_check_timing.created_at = s.created_at ∧
    s.update_check_timing.last_sms_at = s.last_sms_at ∧
    s.update_check_timing.last_voice_call_at = s.last_voice_call_at ∧
    s.update_check_timing.verification_attempts =
      s.verification_attempts ∧
    s.update_check_timing.verification_code = s.verification_code ∧
    s.update_check_timing.metadata.verified = s.metadata.verified ∧
    s.update_check_timing.metadata.expiration_seconds =
      s.metadata.expiration_seconds ∧
    s.update_check_timing.metadata.e164 = s.metadata.e164 ∧
    s.update_check_timing.metadata.session_id = s.metadata.session_id := by
  by_cases h : 0 < s.verification_attempts
  · rw [update_check_timing_pos s h]
    simp
  · rw [update_check_timing_zero s (by omega)]
    simp

theorem update_timing_created_at (s : SessionData) (now : Nat) :
    (s.update_timing now).created_at = s.created_at := by
  unfold SessionData.update_timing
  rw [(update_check_timing_preserves _).1, (update_voice_timing_preserves _ _).1,
    (update_sms_timing_preserves _ _).1]

theorem update_timing_attempts (s : SessionData) (now : Nat) :
    (s.update_timing now).verification_attempts = s.verification_attempts := by
  unfold SessionData.update_timing
  rw [(update_check_timing_preserves _).2.2.2.1,
    (update_voice_timing_preserves _ _).2.2.2.1,
    (update_sms_timing_preserves _ _).2.2.2.1]

theorem update_timing_code (s : SessionData) (now : Nat) :
    (s.update_timing now).verification_code = s.verification_code := by
  unfold SessionData.update_timing
  rw [(update_check_timing_preserves _).2.2.2.2.1,
    (update_voice_timing_preserves _ _).2.2.2.2.1,
    (update_sms_timing_preserves _ _).2.2.2.2.1]

theorem update_timing_verified (s : SessionData) (now : Nat) :
    (s.update_timing now).metadata.verified = s.metadata.verified := by
  unfold SessionData.update_timing
  rw [(update_check_timing_preserves _).2.2.2.2.2.1,
    (update_voice_timing_preserves _ _).2.2.2.2.2.1,
    (update_sms_timing_preserves _ _).2.2.2.2.2.1]

theorem update_timing_expiration (s : SessionData) (now : Nat) :
    (s.update_timing now).metadata.expiration_seconds =
      s.metadata.expiration_seconds := by
  unfold SessionData.update_timing
  rw [(update_check_timing_preserves _).2.2.2.2.2.2.1,
    (update_voice_timing_preserves _ _).2.2.2.2.2.2.1,
    (update_sms_timing_preserves _ _).2.2.2.2.2.2.1]

theorem update_timing_may_check_zero (s : SessionData) (now : Nat)
    (h : s.verification_attempts = 0) :
    (s.update_timing now).metadata.may_check_code =
      s.metadata.may_check_code := by
  unfold SessionData.update_timing
  rw [update_check_timing_zero, (update_voice_timing_preserves _ _).2.2.2.2.2.2.2.2.2.1,
    (update_sms_timing_preserves _ _).2.2.2.2.2.2.2.2.2.1]
  rw [(update_voice_timing_preserves _ _).2.2.2.1,
    (update_sms_timing_preserves _ _).2.2.2.1, h]

theorem update_timing_may_check_pos (s : SessionData) (now : Nat)
    (h : 0 < s.verification_attempts) :
    (s.update_timing now).metadata.may_check_code =
      decide (s.verification_attempts < 3) := by
  unfold SessionData.update_timing
  rw [update_check_timing_pos]
  · show decide (_ < 3) = _
    rw [(update_voice_timing_preserves _ _).2.2.2.1,
      (update_sms_timing_preserves _ _).2.2.2.1]
  · rw [(update_voice_timing_preserves _ _).2.2.2.1,
      (update_sms_timing_preserves _ _).2.2.2.1]
    exact h

theorem update_timing_next_check_pos (s : SessionData) (now : Nat)
    (h : 0 < s.verification_attempts) :
    (s.update_timing now).metadata.next_code_check_seconds =
      (if decide (s.verification_attempts < 3) = true then 0 else 300) := by
  unfold SessionData.update_timing
  rw [update_check_timing_pos]
  · show (if decide (_ < 3) = true then (0:Nat) else 300) = _
    rw [(update_voice_timing_preserves _ _).2.2.2.1,
      (update_sms_timing_preserves _ _).2.2.2.1]
  · rw [(update_voice_timing_preserves _ _).2.2.2.1,
      (update_sms_timing_preserves _ _).2.2.2.1]
    exact h

theorem update_timing_new (m : RegistrationSessionMetadata) (now t : Nat) :
    (SessionData.new m now).update_timing t = SessionData.new m now := rfl
theorem is_expired_false (s : SessionData) (now : Nat)
    (h1 : s.created_at ≤ now)
    (h2 : now < s.created_at + s.metadata.expiration_seconds) :
    s.is_expired now = false := by
  simp only [SessionData.is_expired, duration_since, if_pos h1]
  simp
  omega

theorem is_expired_true (s : SessionData) (now : Nat)
    (h : s.created_at + s.metadata.expiration_seconds ≤ now) :
    s.is_expired now = true := by
  have h1 : s.created_at ≤ now := le_trans (Nat.le_add_right _ _) h
  simp only [SessionData.is_expired, duration_since, if_pos h1]
  simp
  omega

theorem cleanup_get_some (st : SessionStore) (now : Nat) (k : List Nat)
    (s : SessionData) (h : st.get_session k = some s)
    (hexp : s.is_expired now = false) :
    (st.cleanup_expired now).get_session k = some s := by
  simp only [SessionStore.get_session, SessionStore.cleanup_expired] at h ⊢
  rw [h]
  simp [hexp]

theorem cleanup_get_expired (st : SessionStore) (now : Nat) (k : List Nat)
    (s : SessionData) (h : st.get_session k = some s)
    (hexp : s.is_expired now = true) :
    (st.cleanup_expired now).get_session k = none := by
  simp only [SessionStore.get_session, SessionStore.cleanup_expired] at h ⊢
  rw [h]
  simp [hexp]

theorem cleanup_get_none (st : SessionStore) (now : Nat) (k : List Nat)
    (h : st.get_session k = none) :
    (st.cleanup_expired now).get_session k = none := by
  simp only [SessionStore.get_session, SessionStore.cleanup_expired] at h ⊢
  rw [h]

theorem update_session_snd_get (st : SessionStore) (id : List Nat)
    (data s : SessionData) (h : st.get_session id = some s) :
    ((st.update_session id data).2).get_session id = some data := by
  simp only [SessionStore.get_session, SessionStore.update_session] at h ⊢
  rw [h]
  simp

theorem create_get (st : SessionStore) (fid : List Nat) (e164 ttl now : Nat) :
    ((st.create_session fid e164 ttl now).2).get_session fid =
      some (SessionData.new (st.create_session fid e164 ttl now).1 now) := by
  simp [SessionStore.create_session, SessionStore.get_session]
/-! ### Claim theorems -/

/-- C1: for every CreateSession request in which the directory
authenticator succeeds and returns the phone string "+12025550123", the
handler parses the phone as E.164 and returns session metadata with
e164 = 12025550123, may_request_sms = true, may_request_voice_call = true
and may_check_code = false, rather than an error. -/
theorem claim_C1_create_session_happy_path (st : SessionStore)
    (session_timeout : Nat) (fresh_id : List Nat) (now : Nat) :
    (grpc_create_session st "+12025550123" session_timeout fresh_id now).1 =
      Except.ok (CreateSessionResp.sessionMetadata
        { session_id := fresh_id
          verified := false
          e164 := 12025550123
          may_request_sms := true
          next_sms_seconds := 0
          may_request_voice_call := true
          next_voice_call_seconds := 0
          may_check_code := false
          next_code_check_seconds := 0
          expiration_seconds := session_timeout }) := by
  have h : parse_u64 "+12025550123".data = some 12025550123 := by decide
  simp [grpc_create_session, h, SessionStore.create_session]

/-- C9: create_session followed immediately by get_session on the
returned session id yields a session whose metadata carries the same
e164 and the same session id. -/
theorem claim_C9_create_get_roundtrip (st : SessionStore)
    (fresh_id : List Nat) (e164 ttl now : Nat) (h : 0 < ttl) :
    (st.create_session fresh_id e164 ttl now).1.session_id = fresh_id ∧
    (st.create_session fresh_id e164 ttl now).1.e164 = e164 ∧
    (((st.create_session fresh_id e164 ttl now).2).get_session
        (st.create_session fresh_id e164 ttl now).1.session_id).map
        (fun s => (s.metadata.session_id, s.metadata.e164)) =
      some (fresh_id, e164) := by
  refine ⟨rfl, rfl, ?_⟩
  simp [SessionStore.create_session, SessionStore.get_session,
    SessionData.new]

/-- C9 witness: the round trip at a concrete store, id, phone and TTL. -/
theorem claim_C9_create_get_roundtrip_witness :
    (((SessionStore.empty.create_session [7] 12025550123 600 0).2).get_session
        (SessionStore.empty.create_session [7] 12025550123 600 0).1.session_id).map
        (fun s => (s.metadata.session_id, s.metadata.e164)) =
      some ([7], 12025550123) :=
  (claim_C9_create_get_roundtrip SessionStore.empty [7] 12025550123 600 0
    (by decide)).2.2

/-- C10: update_session on a session id absent from the store returns
false and leaves the session map unchanged. -/
theorem claim_C10_update_absent_is_noop (st : SessionStore) (id : List Nat)
    (data : SessionData) (h : st.get_session id = none) :
    st.update_session id data = (false, st) := by
  simp only [SessionStore.get_session] at h
  simp [SessionStore.update_session, h]

/-- C10 witness: updating a missing id in the empty store. -/
theorem claim_C10_update_absent_is_noop_witness :
    SessionStore.empty.update_session [0]
        (SessionData.new (SessionStore.empty.create_session [0] 1 1 0).1 0) =
      (false, SessionStore.empty) :=
  claim_C10_update_absent_is_noop SessionStore.empty [0] _ rfl

/-- Projection of the error type carried by a ValidateCredentials
response, if any. -/
def resultErrorType : ValidateCredentialsResult → Option Nat
  | ValidateCredentialsResult.error e => some e.error_type
  | ValidateCredentialsResult.phoneNumber _ => none

/-- C6: the secondary validation surface maps a user-absent failure to
type 1 and bad credentials to type 2, but it maps EVERY other failure —
including generic server-side failures — to type 3 through its catch-all
arm, and never returns type 4 (SERVER_ERROR): a server-side LDAP failure
is reported as type 3 (the PHONE_NUMBER_NOT_FOUND code) with a
"Server error" message. -/
theorem claim_C6_validate_credentials_error_types :
    validate_credentials
        (Except.error (LdapError.userNotFound "alice")) =
      ValidateCredentialsResult.error
        { error_type := 1, message := "alice" } ∧
    validate_credentials (Except.error LdapError.authenticationFailed) =
      ValidateCredentialsResult.error
        { error_type := 2, message := "Invalid credentials" } ∧
    validate_credentials
        (Except.error (LdapError.phoneNumberNotFound "mobile")) =
      ValidateCredentialsResult.error
        { error_type := 3
          message :=
            "Server error: Phone number not found in attribute: mobile" } ∧
    validate_credentials
        (Except.error (LdapError.serverError "LDAP search failed")) =
      ValidateCredentialsResult.error
        { error_type := 3
          message := "Server error: Server error: LDAP search failed" } ∧
    (∀ e : LdapError,
      resultErrorType (validate_credentials (Except.error e)) ≠ some 4) := by
  refine ⟨rfl, rfl, rfl, rfl, ?_⟩
  intro e
  cases e <;> simp [validate_credentials, resultErrorType, LdapError.display]

/-- C5: a session past its expiry instant is indistinguishable from a
non-existent one: GetSessionMetadata answers with the not-found status
(the same one a missing id gets, because cleanup_expired evicts it before
lookup) and SendVerificationCode answers SESSION_NOT_FOUND. -/
theorem claim_C5_expired_indistinguishable (st : SessionStore)
    (id : List Nat) (s : SessionData) (now : Nat) (transport : Int)
    (code : String) (hs : st.get_session id = some s)
    (hexp : s.created_at + s.metadata.expiration_seconds ≤ now) :
    (get_session_metadata st id now).1 =
      GetMetadataResp.notFound "Session not found" ∧
    (send_verification_code st id transport code now).1 =
      SendCodeResp.error
        { error_type := SendCodeErrType.sessionNotFound
          may_retry := false, retry_after_seconds := 0 } := by
  have he : s.is_expired now = true := is_expired_true s now hexp
  have hgone := cleanup_get_expired st now id s hs he
  constructor
  · simp only [get_session_metadata]
    rw [hgone]
  · simp only [send_verification_code]
    rw [hgone]

/-- C5 witness: a session created with TTL 1 at time 0, queried at
time 2. -/
theorem claim_C5_expired_indistinguishable_witness :
    (get_session_metadata
        (SessionStore.empty.create_session [7] 12025550123 1 0).2 [7] 2).1 =
      GetMetadataResp.notFound "Session not found" ∧
    (send_verification_code
        (SessionStore.empty.create_session [7] 12025550123 1 0).2
        [7] 0 "111111" 2).1 =
      SendCodeResp.error
        { error_type := SendCodeErrType.sessionNotFound
          may_retry := false, retry_after_seconds := 0 } :=
  claim_C5_expired_indistinguishable _ [7]
    (SessionData.new (SessionStore.empty.create_session [7] 12025550123 1 0).1 0)
    2 0 "111111" rfl (by decide)
/-- C2 counterexample: on a fresh session (no SMS ever sent),
SendVerificationCode with transport VOICE does NOT return
TRANSPORT_NOT_ALLOWED — it succeeds and returns session metadata,
because the handler only consults may_request_voice_call (true at
creation) and implements no delay_after_first_sms gate. -/
theorem claim_C2_voice_on_fresh_counterexample :
    (send_verification_code
        (SessionStore.empty.create_session [7] 12025550123 600 0).2
        [7] 1 "222222" 0).1 =
      SendCodeResp.sessionMetadata
        { session_id := [7]
          verified := false
          e164 := 12025550123
          may_request_sms := true
          next_sms_seconds := 0
          may_request_voice_call := true
          next_voice_call_seconds := 0
          may_check_code := true
          next_code_check_seconds := 0
          expiration_seconds := 600 } ∧
    (send_verification_code
        (SessionStore.empty.create_session [7] 12025550123 600 0).2
        [7] 1 "222222" 0).1 ≠
      SendCodeResp.error
        { error_type := SendCodeErrType.transportNotAllowed
          may_retry := false, retry_after_seconds := 0 } := by
  constructor <;> decide

/-- C2 amended: on a fresh session, SendVerificationCode with transport
VOICE succeeds and returns session metadata (with may_check_code now
true): the delay_after_first_sms gate is not implemented by the handler,
which returns TRANSPORT_NOT_ALLOWED only for transport values other than
SMS (0) and VOICE (1). -/
theorem claim_C2_voice_on_fresh_succeeds (st : SessionStore)
    (fresh_id : List Nat) (e164 ttl now : Nat) (code : String)
    (h : 0 < ttl) :
    (send_verification_code (st.create_session fresh_id e164 ttl now).2
        fresh_id 1 code now).1 =
      SendCodeResp.sessionMetadata
        { session_id := fresh_id
          verified := false
          e164 := e164
          may_request_sms := true
          next_sms_seconds := 0
          may_request_voice_call := true
          next_voice_call_seconds := 0
          may_check_code := true
          next_code_check_seconds := 0
          expiration_seconds := ttl } ∧
    (∀ transport : Int, transport ≠ 0 → transport ≠ 1 →
      (send_verification_code (st.create_session fresh_id e164 ttl now).2
          fresh_id transport code now).1 =
        SendCodeResp.error
          { error_type := SendCodeErrType.transportNotAllowed
            may_retry := false, retry_after_seconds := 0 }) := by
  have hg := create_get st fresh_id e164 ttl now
  have hexp : (SessionData.new
      (st.create_session fresh_id e164 ttl now).1 now).is_expired now =
      false := by
    apply is_expired_false _ _ (le_refl now)
    simp [SessionData.new, SessionStore.create_session]
    omega
  have hcg := cleanup_get_some _ now fresh_id _ hg hexp
  constructor
  · simp only [send_verification_code]
    rw [hcg]
    simp only [hexp, update_timing_new, Bool.false_eq_true, if_false]
    simp [SessionStore.create_session, SessionData.new]
  · intro transport h0 h1
    simp only [send_verification_code]
    rw [hcg]
    simp only [hexp, update_timing_new, Bool.false_eq_true, if_false]
    simp [h0, h1]

/-- C2 amended witness: the voice-first success at a concrete store,
session and time. -/
theorem claim_C2_voice_on_fresh_succeeds_witness :
    (send_verification_code
        (SessionStore.empty.create_session [7] 12025550123 600 0).2
        [7] 1 "222222" 0).1 =
      SendCodeResp.sessionMetadata
        { session_id := [7]
          verified := false
          e164 := 12025550123
          may_request_sms := true
          next_sms_seconds := 0
          may_request_voice_call := true
          next_voice_call_seconds := 0
          may_check_code := true
          next_code_check_seconds := 0
          expiration_seconds := 600 } :=
  (claim_C2_voice_on_fresh_succeeds SessionStore.empty [7] 12025550123 600 0
    "222222" (by decide)).1
/-- A successful SMS send on a live session: the handler stores the
timing-refreshed session with the fresh code installed and
may_check_code switched on, and answers with that session's metadata. -/
theorem send_sms_step (st : SessionStore) (id : List Nat) (s : SessionData)
    (code : String) (now : Nat)
    (hs : st.get_session id = some s)
    (h1 : s.created_at ≤ now)
    (h2 : now < s.created_at + s.metadata.expiration_seconds)
    (hmay : (s.update_timing now).metadata.may_request_sms = true) :
    send_verification_code st id 0 code now =
      (SendCodeResp.sessionMetadata
        ({ s.update_timing now with
            last_sms_at := some now
            verification_code := some code
            metadata := { (s.update_timing now).metadata with
                may_check_code := true
                next_code_check_seconds := 0 } }).metadata,
       ((st.cleanup_expired now).update_session id
         { s.update_timing now with
             last_sms_at := some now
             verification_code := some code
             metadata := { (s.update_timing now).metadata with
                 may_check_code := true
                 next_code_check_seconds := 0 } }).2) := by
  have hexp := is_expired_false s now h1 h2
  have hcg := cleanup_get_some st now id s hs hexp
  simp only [send_verification_code]
  rw [hcg]
  simp only [hexp, hmay, Bool.false_eq_true, if_false, Bool.not_true]
  simp

/-- A check with a code different from the active one, on a live session
whose refreshed may_check_code guard passes: the attempt counter is
bumped, the timing recomputed, the session stored, and its metadata
returned. -/
theorem check_wrong_step (st : SessionStore) (id : List Nat)
    (s : SessionData) (active wrong : String) (now : Nat)
    (hs : st.get_session id = some s)
    (h1 : s.created_at ≤ now)
    (h2 : now < s.created_at + s.metadata.expiration_seconds)
    (hmayUpd : (s.update_timing now).metadata.may_check_code = true)
    (hcode : s.verification_code = some active)
    (hwrong : wrong ≠ active) :
    check_verification_code st id wrong now =
      (CheckCodeResp.sessionMetadata
        (({ s.update_timing now with
             verification_attempts :=
               (s.verification_attempts + 1) % 2 ^ 32 }).update_timing
            now).metadata,
       ((st.cleanup_expired now).update_session id
         (({ s.update_timing now with
              verification_attempts :=
                (s.verification_attempts + 1) % 2 ^ 32 }).update_timing
             now)).2) := by
  have hexp := is_expired_false s now h1 h2
  have hcg := cleanup_get_some st now id s hs hexp
  have hc : (s.update_timing now).verification_code = some active := by
    rw [update_timing_code]
    exact hcode
  have ha := update_timing_attempts s now
  simp only [check_verification_code]
  rw [hcg]
  simp only [hexp, hmayUpd, hc, Bool.false_eq_true, if_false,
    Bool.not_true, hwrong, ha]

/-- A check with the active code, on a live session whose refreshed
may_check_code guard passes: verified is set to true, the session
stored, and its metadata returned. -/
theorem check_right_step (st : SessionStore) (id : List Nat)
    (s : SessionData) (active : String) (now : Nat)
    (hs : st.get_session id = some s)
    (h1 : s.created_at ≤ now)
    (h2 : now < s.created_at + s.metadata.expiration_seconds)
    (hmayUpd : (s.update_timing now).metadata.may_check_code = true)
    (hcode : s.verification_code = some active) :
    check_verification_code st id active now =
      (CheckCodeResp.sessionMetadata
        { (s.update_timing now).metadata with verified := true },
       ((st.cleanup_expired now).update_session id
         { s.update_timing now with metadata :=
             { (s.update_timing now).metadata with verified := true } }).2) := by
  have hexp := is_expired_false s now h1 h2
  have hcg := cleanup_get_some st now id s hs hexp
  have hc : (s.update_timing now).verification_code = some active := by
    rw [update_timing_code]
    exact hcode
  simp only [check_verification_code]
  rw [hcg]
  simp only [hexp, hmayUpd, hc, Bool.false_eq_true, if_false,
    Bool.not_true]
  simp
/-- E2-style scenario: create a session, send an SMS code "111111",
then check the wrong code "000000". -/
def c7_store_after_wrong : CheckCodeResp × SessionStore :=
  check_verification_code
    (send_verification_code
      (SessionStore.empty.create_session [7] 12025550123 600 0).2
      [7] 0 "111111" 0).2
    [7] "000000" 0

/-- The scenario continued: check the active code "111111". -/
def c7_after_correct : CheckCodeResp × SessionStore :=
  check_verification_code c7_store_after_wrong.2 [7] "111111" 0

/-- The verified flag carried by a CheckVerificationCode response, if it
is a metadata response. -/
def checkRespVerified : CheckCodeResp → Option Bool
  | CheckCodeResp.sessionMetadata m => some m.verified
  | CheckCodeResp.error _ => none

/-- C7 counterexample: after a wrong check (attempts = 1, verified
false), the following check with the active code returns verified = true
but the attempt counter stays at 1 — the successful check is NOT counted
as an attempt, contradicting the claimed check_attempts = 2. -/
theorem claim_C7_success_not_counted_counterexample :
    (c7_store_after_wrong.2.get_session [7]).map
        (fun d => d.verification_attempts) = some 1 ∧
    checkRespVerified c7_after_correct.1 = some true ∧
    (c7_after_correct.2.get_session [7]).map
        (fun d => d.verification_attempts) = some 1 ∧
    (c7_after_correct.2.get_session [7]).map
        (fun d => d.verification_attempts) ≠ some 2 := by
  refine ⟨by decide, by decide, by decide, by decide⟩
/-- Facts about the session stored by a failed check: the bump of the
attempt counter followed by the timing recomputation changes nothing
else of interest. -/
theorem bumped_session_facts (s : SessionData) (now : Nat) :
    (({ s.update_timing now with
        verification_attempts :=
          (s.verification_attempts + 1) % 2 ^ 32 }).update_timing
        now).verification_attempts =
      (s.verification_attempts + 1) % 2 ^ 32 ∧
    (({ s.update_timing now with
        verification_attempts :=
          (s.verification_attempts + 1) % 2 ^ 32 }).update_timing
        now).metadata.verified = s.metadata.verified ∧
    (({ s.update_timing now with
        verification_attempts :=
          (s.verification_attempts + 1) % 2 ^ 32 }).update_timing
        now).verification_code = s.verification_code ∧
    (({ s.update_timing now with
        verification_attempts :=
          (s.verification_attempts + 1) % 2 ^ 32 }).update_timing
        now).created_at = s.created_at ∧
    (({ s.update_timing now with
        verification_attempts :=
          (s.verification_attempts + 1) % 2 ^ 32 }).update_timing
        now).metadata.expiration_seconds =
      s.metadata.expiration_seconds := by
  refine ⟨?_, ?_, ?_, ?_, ?_⟩
  · rw [update_timing_attempts]
  · rw [update_timing_verified]
    show (s.update_timing now).metadata.verified = s.metadata.verified
    exact update_timing_verified s now
  · rw [update_timing_code]
    show (s.update_timing now).verification_code = s.verification_code
    exact update_timing_code s now
  · rw [update_timing_created_at]
    show (s.update_timing now).created_at = s.created_at
    exact update_timing_created_at s now
  · rw [update_timing_expiration]
    show (s.update_timing now).metadata.expiration_seconds =
      s.metadata.expiration_seconds
    exact update_timing_expiration s now

/-- Summary of a wrong check on a live session: the response carries the
unchanged verified flag and the stored session is the bumped one. -/
theorem check_wrong_summary (st : SessionStore) (id : List Nat)
    (s : SessionData) (active wrong : String) (now : Nat)
    (hs : st.get_session id = some s)
    (h1 : s.created_at ≤ now)
    (h2 : now < s.created_at + s.metadata.expiration_seconds)
    (hmayUpd : (s.update_timing now).metadata.may_check_code = true)
    (hcode : s.verification_code = some active)
    (hwrong : wrong ≠ active) :
    checkRespVerified (check_verification_code st id wrong now).1 =
      some s.metadata.verified ∧
    (check_verification_code st id wrong now).2.get_session id =
      some (({ s.update_timing now with
          verification_attempts :=
            (s.verification_attempts + 1) % 2 ^ 32 }).update_timing now) := by
  have hstep := check_wrong_step st id s active wrong now hs h1 h2
    hmayUpd hcode hwrong
  constructor
  · rw [hstep]
    simp only [checkRespVerified]
    exact congrArg some (bumped_session_facts s now).2.1
  · rw [hstep]
    exact update_session_snd_get _ id _ s
      (cleanup_get_some st now id s hs (is_expired_false s now h1 h2))

/-- Summary of a correct check on a live session: the response says
verified and the stored session keeps the attempt counter unchanged. -/
theorem check_right_summary (st : SessionStore) (id : List Nat)
    (s : SessionData) (active : String) (now : Nat)
    (hs : st.get_session id = some s)
    (h1 : s.created_at ≤ now)
    (h2 : now < s.created_at + s.metadata.expiration_seconds)
    (hmayUpd : (s.update_timing now).metadata.may_check_code = true)
    (hcode : s.verification_code = some active) :
    checkRespVerified (check_verification_code st id active now).1 =
      some true ∧
    ((check_verification_code st id active now).2.get_session id).map
        (fun d => d.verification_attempts) =
      some s.verification_attempts := by
  have hstep := check_right_step st id s active now hs h1 h2 hmayUpd hcode
  constructor
  · rw [hstep]
    rfl
  · rw [hstep]
    rw [update_session_snd_get _ id _ s
      (cleanup_get_some st now id s hs (is_expired_false s now h1 h2))]
    rw [Option.map_some']
    exact congrArg some (update_timing_attempts s now)
/-- C7 amended: on a live session with an active code, no prior
attempts, and checking allowed, a wrong check returns verified = false
and stores check_attempts = 1; a following check with the active code
returns verified = true and leaves check_attempts at 1 — the code counts
only failed checks, so the successful one does not reach 2. -/
theorem claim_C7_wrong_then_correct (st : SessionStore) (id : List Nat)
    (s : SessionData) (active wrong : String) (t1 t2 : Nat)
    (hs : st.get_session id = some s)
    (hcode : s.verification_code = some active)
    (hwrong : wrong ≠ active)
    (hatt : s.verification_attempts = 0)
    (hmay : s.metadata.may_check_code = true)
    (hver : s.metadata.verified = false)
    (ha1 : s.created_at ≤ t1)
    (hb1 : t1 < s.created_at + s.metadata.expiration_seconds)
    (ha2 : s.created_at ≤ t2)
    (hb2 : t2 < s.created_at + s.metadata.expiration_seconds) :
    checkRespVerified (check_verification_code st id wrong t1).1 =
      some false ∧
    ((check_verification_code st id wrong t1).2.get_session id).map
        (fun d => d.verification_attempts) = some 1 ∧
    checkRespVerified
        (check_verification_code
          (check_verification_code st id wrong t1).2 id active t2).1 =
      some true ∧
    ((check_verification_code
          (check_verification_code st id wrong t1).2 id active
          t2).2.get_session id).map
        (fun d => d.verification_attempts) = some 1 := by
  have hmayUpd1 : (s.update_timing t1).metadata.may_check_code = true := by
    rw [update_timing_may_check_zero s t1 hatt]
    exact hmay
  obtain ⟨hw1, hw2⟩ := check_wrong_summary st id s active wrong t1 hs ha1 hb1
    hmayUpd1 hcode hwrong
  obtain ⟨hba, hbv, hbc, hbcr, hbe⟩ := bumped_session_facts s t1
  have hba1 : (({ s.update_timing t1 with
      verification_attempts :=
        (s.verification_attempts + 1) % 2 ^ 32 }).update_timing
      t1).verification_attempts = 1 := by
    rw [hba, hatt]
    rfl
  have hbmay : ((({ s.update_timing t1 with
      verification_attempts :=
        (s.verification_attempts + 1) % 2 ^ 32 }).update_timing
      t1).update_timing t2).metadata.may_check_code = true := by
    rw [update_timing_may_check_pos _ t2 (by rw [hba1]; omega), hba1]
    rfl
  obtain ⟨hr1, hr2⟩ := check_right_summary _ id _ active t2 hw2
    (by rw [hbcr]; exact ha2)
    (by rw [hbcr, hbe]; exact hb2) hbmay (by rw [hbc]; exact hcode)
  refine ⟨?_, ?_, hr1, ?_⟩
  · rw [hw1, hver]
  · rw [hw2, Option.map_some']
    exact congrArg some hba1
  · rw [hr2]
    exact congrArg some hba1
/-- A concrete live session with an active code, used to instantiate the
amended C7 theorem. -/
def c7w_session : SessionData :=
  { metadata :=
      { session_id := [8]
        verified := false
        e164 := 12025550123
        may_request_sms := false
        next_sms_seconds := 60
        may_request_voice_call := true
        next_voice_call_seconds := 0
        may_check_code := true
        next_code_check_seconds := 0
        expiration_seconds := 600 }
    created_at := 0
    last_sms_at := some 0
    last_voice_call_at := none
    verification_attempts := 0
    verification_code := some "111111" }

/-- A store holding only that session. -/
def c7w_store : SessionStore :=
  fun k => if k = [8] then some c7w_session else none

/-- C7 amended witness: wrong-then-correct checks on the concrete
session. -/
theorem claim_C7_wrong_then_correct_witness :
    checkRespVerified
        (check_verification_code c7w_store [8] "000000" 1).1 = some false ∧
    ((check_verification_code c7w_store [8] "000000" 1).2.get_session
        [8]).map (fun d => d.verification_attempts) = some 1 ∧
    checkRespVerified
        (check_verification_code
          (check_verification_code c7w_store [8] "000000" 1).2
          [8] "111111" 2).1 = some true ∧
    ((check_verification_code
          (check_verification_code c7w_store [8] "000000" 1).2
          [8] "111111" 2).2.get_session [8]).map
        (fun d => d.verification_attempts) = some 1 :=
  claim_C7_wrong_then_correct c7w_store [8] c7w_session "111111" "000000"
    1 2 rfl rfl (by decide) rfl rfl rfl (by decide) (by decide)
    (by decide) (by decide)
/-- Facts about the session stored by a successful SMS send: the fresh
code is installed, checking is enabled, and the rest of interest is
unchanged. -/
theorem sent_session_facts (s : SessionData) (code : String) (now : Nat) :
    ({ s.update_timing now with
        last_sms_at := some now
        verification_code := some code
        metadata := { (s.update_timing now).metadata with
            may_check_code := true
            next_code_check_seconds := 0 } } : SessionData).created_at =
      s.created_at ∧
    ({ s.update_timing now with
        last_sms_at := some now
        verification_code := some code
        metadata := { (s.update_timing now).metadata with
            may_check_code := true
            next_code_check_seconds := 0 } } : SessionData).metadata.expiration_seconds =
      s.metadata.expiration_seconds ∧
    ({ s.update_timing now with
        last_sms_at := some now
        verification_code := some code
        metadata := { (s.update_timing now).metadata with
            may_check_code := true
            next_code_check_seconds := 0 } } : SessionData).verification_attempts =
      s.verification_attempts ∧
    ({ s.update_timing now with
        last_sms_at := some now
        verification_code := some code
        metadata := { (s.update_timing now).metadata with
            may_check_code := true
            next_code_check_seconds := 0 } } : SessionData).metadata.verified =
      s.metadata.verified ∧
    ({ s.update_timing now with
        last_sms_at := some now
        verification_code := some code
        metadata := { (s.update_timing now).metadata with
            may_check_code := true
            next_code_check_seconds := 0 } } : SessionData).verification_code =
      some code ∧
    ({ s.update_timing now with
        last_sms_at := some now
        verification_code := some code
        metadata := { (s.update_timing now).metadata with
            may_check_code := true
            next_code_check_seconds := 0 } } : SessionData).metadata.may_check_code =
      true := by
  refine ⟨?_, ?_, ?_, ?_, rfl, rfl⟩
  · exact update_timing_created_at s now
  · exact update_timing_expiration s now
  · exact update_timing_attempts s now
  · exact update_timing_verified s now

/-- C4: a second successful SMS send supersedes the outstanding code c1
with the fresh code c2; a check of c1 is then rejected locally (the
response and the stored session keep verified = false, the active code
stays c2), and a following check of c2 verifies the session. -/
theorem claim_C4_superseded_code (st : SessionStore) (id : List Nat)
    (s : SessionData) (c1 c2 : String) (t1 t2 t3 : Nat)
    (hs : st.get_session id = some s)
    (hcode : s.verification_code = some c1)
    (hne : c1 ≠ c2)
    (hatt : s.verification_attempts = 0)
    (hver : s.metadata.verified = false)
    (hsms : (s.update_timing t1).metadata.may_request_sms = true)
    (ha1 : s.created_at ≤ t1)
    (hb1 : t1 < s.created_at + s.metadata.expiration_seconds)
    (ha2 : s.created_at ≤ t2)
    (hb2 : t2 < s.created_at + s.metadata.expiration_seconds)
    (ha3 : s.created_at ≤ t3)
    (hb3 : t3 < s.created_at + s.metadata.expiration_seconds) :
    checkRespVerified
        (check_verification_code
          (send_verification_code st id 0 c2 t1).2 id c1 t2).1 =
      some false ∧
    ((check_verification_code
          (send_verification_code st id 0 c2 t1).2 id c1 t2).2.get_session
        id).map (fun d => (d.metadata.verified, d.verification_code)) =
      some (false, some c2) ∧
    checkRespVerified
        (check_verification_code
          (check_verification_code
            (send_verification_code st id 0 c2 t1).2 id c1 t2).2
          id c2 t3).1 = some true := by
  have hsend := send_sms_step st id s c2 t1 hs ha1 hb1 hsms
  have hget1 : (send_verification_code st id 0 c2 t1).2.get_session id =
      some { s.update_timing t1 with
        last_sms_at := some t1
        verification_code := some c2
        metadata := { (s.update_timing t1).metadata with
            may_check_code := true
            next_code_check_seconds := 0 } } := by
    rw [hsend]
    exact update_session_snd_get _ id _ s
      (cleanup_get_some st t1 id s hs (is_expired_false s t1 ha1 hb1))
  obtain ⟨hs1cr, hs1e, hs1a, hs1v, hs1c, hs1m⟩ := sent_session_facts s c2 t1
  have hs1a0 : ({ s.update_timing t1 with
      last_sms_at := some t1
      verification_code := some c2
      metadata := { (s.update_timing t1).metadata with
          may_check_code := true
          next_code_check_seconds := 0 } } : SessionData).verification_attempts =
      0 := by rw [hs1a, hatt]
  have hmayUpd2 : (({ s.update_timing t1 with
      last_sms_at := some t1
      verification_code := some c2
      metadata := { (s.update_timing t1).metadata with
          may_check_code := true
          next_code_check_seconds := 0 } } : SessionData).update_timing
      t2).metadata.may_check_code = true := by
    rw [update_timing_may_check_zero _ t2 hs1a0]
  obtain ⟨hw1, hw2⟩ := check_wrong_summary _ id _ c2 c1 t2 hget1
    (by rw [hs1cr]; exact ha2) (by rw [hs1cr, hs1e]; exact hb2)
    hmayUpd2 hs1c hne
  obtain ⟨hba, hbv, hbc, hbcr, hbe⟩ := bumped_session_facts
    { s.update_timing t1 with
      last_sms_at := some t1
      verification_code := some c2
      metadata := { (s.update_timing t1).metadata with
          may_check_code := true
          next_code_check_seconds := 0 } } t2
  have hbattempts : (({ { s.update_timing t1 with
        last_sms_at := some t1
        verification_code := some c2
        metadata := { (s.update_timing t1).metadata with
            may_check_code := true
            next_code_check_seconds := 0 } }.update_timing t2 with
      verification_attempts :=
        (({ s.update_timing t1 with
            last_sms_at := some t1
            verification_code := some c2
            metadata := { (s.update_timing t1).metadata with
                may_check_code := true
                next_code_check_seconds :=
                  0 } } : SessionData).verification_attempts + 1) %
          2 ^ 32 } : SessionData).update_timing
      t2).verification_attempts = 1 := by
    rw [hba, hs1a0]
    rfl
  have hbmay3 : ((({ { s.update_timing t1 with
        last_sms_at := some t1
        verification_code := some c2
        metadata := { (s.update_timing t1).metadata with
            may_check_code := true
            next_code_check_seconds := 0 } }.update_timing t2 with
      verification_attempts :=
        (({ s.update_timing t1 with
            last_sms_at := some t1
            verification_code := some c2
            metadata := { (s.update_timing t1).metadata with
                may_check_code := true
                next_code_check_seconds :=
                  0 } } : SessionData).verification_attempts + 1) %
          2 ^ 32 } : SessionData).update_timing t2).update_timing
      t3).metadata.may_check_code = true := by
    rw [update_timing_may_check_pos _ t3 (by rw [hbattempts]; omega),
      hbattempts]
    rfl
  obtain ⟨hr1, hr2⟩ := check_right_summary _ id _ c2 t3 hw2
    (by rw [hbcr, hs1cr]; exact ha3)
    (by rw [hbcr, hbe, hs1cr, hs1e]; exact hb3) hbmay3
    (by rw [hbc, hs1c])
  refine ⟨?_, ?_, hr1⟩
  · rw [hw1, hs1v, hver]
  · rw [hw2, Option.map_some']
    refine congrArg some ?_
    rw [hbv, hbc, hs1v, hver, hs1c]
/-- C4 witness: supersede "111111" by "222222" on the concrete session,
then check both codes. -/
theorem claim_C4_superseded_code_witness :
    checkRespVerified
        (check_verification_code
          (send_verification_code c7w_store [8] 0 "222222" 60).2
          [8] "111111" 61).1 = some false ∧
    ((check_verification_code
          (send_verification_code c7w_store [8] 0 "222222" 60).2
          [8] "111111" 61).2.get_session [8]).map
        (fun d => (d.metadata.verified, d.verification_code)) =
      some (false, some "222222") ∧
    checkRespVerified
        (check_verification_code
          (check_verification_code
            (send_verification_code c7w_store [8] 0 "222222" 60).2
            [8] "111111" 61).2 [8] "222222" 62).1 = some true :=
  claim_C4_superseded_code c7w_store [8] c7w_session "111111" "222222"
    60 61 62 rfl rfl (by decide) rfl rfl (by decide) (by decide)
    (by decide) (by decide) (by decide) (by decide) (by decide)
/-- Every session stored in the map has at most MAX (3) recorded check
attempts. -/
def AttemptsBounded (st : SessionStore) : Prop :=
  ∀ id s, st.get_session id = some s → s.verification_attempts ≤ 3

/-- The session stores reachable through the service's operations,
starting from the empty store. -/
inductive Reachable : SessionStore → Prop where
  | empty : Reachable SessionStore.empty
  | create (st : SessionStore) (fid : List Nat) (e164 ttl now : Nat) :
      Reachable st → Reachable (st.create_session fid e164 ttl now).2
  | send (st : SessionStore) (id : List Nat) (tr : Int) (code : String)
      (now : Nat) :
      Reachable st → Reachable (send_verification_code st id tr code now).2
  | check (st : SessionStore) (id : List Nat) (code : String) (now : Nat) :
      Reachable st → Reachable (check_verification_code st id code now).2
  | getMeta (st : SessionStore) (id : List Nat) (now : Nat) :
      Reachable st → Reachable (get_session_metadata st id now).2
  | cleanup (st : SessionStore) (now : Nat) :
      Reachable st → Reachable (st.cleanup_expired now)

theorem empty_bounded : AttemptsBounded SessionStore.empty := by
  intro id s hs
  simp [SessionStore.empty, SessionStore.get_session] at hs

theorem cleanup_bounded (st : SessionStore) (now : Nat)
    (h : AttemptsBounded st) : AttemptsBounded (st.cleanup_expired now) := by
  intro id s hs
  apply h id s
  simp only [SessionStore.get_session, SessionStore.cleanup_expired] at hs ⊢
  rcases h2 : st id with _ | t
  · rw [h2] at hs
    simp at hs
  · rw [h2] at hs
    by_cases he : t.is_expired now = true
    · simp [he] at hs
    · simp [he] at hs
      subst hs
      rfl

theorem update_session_bounded (st : SessionStore) (id : List Nat)
    (data : SessionData) (h : AttemptsBounded st)
    (hd : data.verification_attempts ≤ 3) :
    AttemptsBounded (st.update_session id data).2 := by
  intro k s hs
  simp only [SessionStore.get_session, SessionStore.update_session] at hs
  rcases h2 : st id with _ | t
  · rw [h2] at hs
    exact h k s hs
  · rw [h2] at hs
    by_cases hk : k = id
    · simp only [hk, if_pos rfl] at hs
      cases hs
      exact hd
    · simp only [if_neg hk] at hs
      exact h k s hs

theorem create_bounded (st : SessionStore) (fid : List Nat)
    (e164 ttl now : Nat) (h : AttemptsBounded st) :
    AttemptsBounded (st.create_session fid e164 ttl now).2 := by
  intro k s hk
  simp only [SessionStore.get_session, SessionStore.create_session] at hk
  by_cases hkf : k = fid
  · simp only [hkf, if_pos rfl] at hk
    cases hk
    exact Nat.zero_le 3
  · simp only [if_neg hkf] at hk
    exact h k s hk

theorem send_bounded (st : SessionStore) (id : List Nat) (tr : Int)
    (code : String) (now : Nat) (h : AttemptsBounded st) :
    AttemptsBounded (send_verification_code st id tr code now).2 := by
  have hc := cleanup_bounded st now h
  simp only [send_verification_code]
  split
  · exact hc
  next s0 hg =>
    have hs0 : s0.verification_attempts ≤ 3 := hc id s0 hg
    split
    · exact hc
    · split
      · split
        · exact hc
        · refine update_session_bounded _ _ _ hc ?_
          show (s0.update_timing now).verification_attempts ≤ 3
          rw [update_timing_attempts]
          exact hs0
      · split
        · split
          · exact hc
          · refine update_session_bounded _ _ _ hc ?_
            show (s0.update_timing now).verification_attempts ≤ 3
            rw [update_timing_attempts]
            exact hs0
        · exact hc

theorem check_bounded (st : SessionStore) (id : List Nat) (code : String)
    (now : Nat) (h : AttemptsBounded st) :
    AttemptsBounded (check_verification_code st id code now).2 := by
  have hc := cleanup_bounded st now h
  simp only [check_verification_code]
  split
  · exact hc
  next s0 hg =>
    have hs0 : s0.verification_attempts ≤ 3 := hc id s0 hg
    split
    · exact hc
    · split
      · exact hc
      next hmay =>
        have hmayb : (s0.update_timing now).metadata.may_check_code = true := by
          revert hmay
          cases (s0.update_timing now).metadata.may_check_code <;> simp
        split
        next stored hcodeq =>
          split
          · refine update_session_bounded _ _ _ hc ?_
            show (s0.update_timing now).verification_attempts ≤ 3
            rw [update_timing_attempts]
            exact hs0
          · refine update_session_bounded _ _ _ hc ?_
            have hlt : s0.verification_attempts < 3 := by
              rcases Nat.eq_zero_or_pos s0.verification_attempts with hz | hp
              · omega
              · have hd := update_timing_may_check_pos s0 now hp
                rw [hmayb] at hd
                have := of_decide_eq_true hd.symm
                exact this
            show (({ s0.update_timing now with
                verification_attempts :=
                  ((s0.update_timing now).verification_attempts + 1) %
                    2 ^ 32 }).update_timing now).verification_attempts ≤ 3
            rw [update_timing_attempts]
            show ((s0.update_timing now).verification_attempts + 1) %
                2 ^ 32 ≤ 3
            rw [update_timing_attempts]
            have hpow : s0.verification_attempts + 1 < 2 ^ 32 := by
              have h4 : (4:Nat) ≤ 2 ^ 32 := by norm_num
              omega
            rw [Nat.mod_eq_of_lt hpow]
            omega
        · exact hc

theorem getMeta_bounded (st : SessionStore) (id : List Nat) (now : Nat)
    (h : AttemptsBounded st) :
    AttemptsBounded (get_session_metadata st id now).2 := by
  have hc := cleanup_bounded st now h
  simp only [get_session_metadata]
  split
  · exact hc
  next s0 hg =>
    have hs0 : s0.verification_attempts ≤ 3 := hc id s0 hg
    split
    · exact hc
    · refine update_session_bounded _ _ _ hc ?_
      show (s0.update_timing now).verification_attempts ≤ 3
      rw [update_timing_attempts]
      exact hs0

theorem reachable_bounded (st : SessionStore) (h : Reachable st) :
    AttemptsBounded st := by
  induction h with
  | empty => exact empty_bounded
  | create st fid e164 ttl now _ ih => exact create_bounded st fid e164 ttl now ih
  | send st id tr code now _ ih => exact send_bounded st id tr code now ih
  | check st id code now _ ih => exact check_bounded st id code now ih
  | getMeta st id now _ ih => exact getMeta_bounded st id now ih
  | cleanup st now _ ih => exact cleanup_bounded st now ih
/-- C3: in every reachable store the per-session attempt counter never
exceeds 3; and on a live session whose counter has reached 3 (the state
after three successive incorrect checks), every further check returns
RATE_LIMITED with retry_after_seconds = 300 > 0, while the session
metadata reports may_check_code = false. -/
theorem claim_C3_attempt_cap_and_lockout :
    (∀ st, Reachable st → ∀ id s, st.get_session id = some s →
      s.verification_attempts ≤ 3) ∧
    (∀ st id s code now, st.get_session id = some s →
      s.created_at ≤ now →
      now < s.created_at + s.metadata.expiration_seconds →
      3 ≤ s.verification_attempts →
      (check_verification_code st id code now).1 =
        CheckCodeResp.error
          { error_type := CheckCodeErrType.rateLimited
            may_retry := true, retry_after_seconds := 300 } ∧
      (0:Nat) < 300 ∧
      (∃ m, (get_session_metadata st id now).1 =
          GetMetadataResp.sessionMetadata m ∧
        m.may_check_code = false)) := by
  constructor
  · intro st h
    exact reachable_bounded st h
  · intro st id s code now hs h1 h2 h3
    have hexp := is_expired_false s now h1 h2
    have hcg := cleanup_get_some st now id s hs hexp
    have hpos : 0 < s.verification_attempts := by omega
    have hnlt : ¬ (s.verification_attempts < 3) := by omega
    have hmay : (s.update_timing now).metadata.may_check_code = false := by
      rw [update_timing_may_check_pos s now hpos]
      simp [hnlt]
    have hnext :
        (s.update_timing now).metadata.next_code_check_seconds = 300 := by
      rw [update_timing_next_check_pos s now hpos]
      simp [hnlt]
    refine ⟨?_, by omega, ?_⟩
    · simp only [check_verification_code]
      rw [hcg]
      simp only [hexp, hmay, hnext, Bool.false_eq_true, if_false,
        Bool.not_false, if_pos rfl]
      simp
    · simp only [get_session_metadata]
      rw [hcg]
      simp only [hexp, Bool.false_eq_true, if_false]
      exact ⟨(s.update_timing now).metadata, rfl, hmay⟩

/-- A live session whose attempt counter has reached the cap. -/
def lockedSession : SessionData :=
  { metadata :=
      { session_id := [9]
        verified := false
        e164 := 12025550123
        may_request_sms := false
        next_sms_seconds := 60
        may_request_voice_call := true
        next_voice_call_seconds := 0
        may_check_code := false
        next_code_check_seconds := 300
        expiration_seconds := 600 }
    created_at := 0
    last_sms_at := some 0
    last_voice_call_at := none
    verification_attempts := 3
    verification_code := some "111111" }

/-- A store holding only the locked session. -/
def lockedStore : SessionStore :=
  fun k => if k = [9] then some lockedSession else none

/-- C3 witness: the bound on a store reached by one create, and the
lockout response on the concrete locked session. -/
theorem claim_C3_attempt_cap_and_lockout_witness :
    (SessionData.new
        (SessionStore.empty.create_session [7] 12025550123 600 0).1
        0).verification_attempts ≤ 3 ∧
    ((check_verification_code lockedStore [9] "000000" 1).1 =
        CheckCodeResp.error
          { error_type := CheckCodeErrType.rateLimited
            may_retry := true, retry_after_seconds := 300 } ∧
      (0:Nat) < 300 ∧
      (∃ m, (get_session_metadata lockedStore [9] 1).1 =
          GetMetadataResp.sessionMetadata m ∧
        m.may_check_code = false)) :=
  ⟨claim_C3_attempt_cap_and_lockout.1
      (SessionStore.empty.create_session [7] 12025550123 600 0).2
      (Reachable.create SessionStore.empty [7] 12025550123 600 0
        Reachable.empty)
      [7] _ rfl,
    claim_C3_attempt_cap_and_lockout.2 lockedStore [9] lockedSession
      "000000" 1 rfl (by decide) (by decide) (by decide)⟩
/-- The per-character escape map: each LDAP-special character is
replaced by its backslash-hex escape sequence, every other character is
kept. -/
def escChar (c : Char) : List Char :=
  if c = '\\' then ['\\', '5', 'c']
  else if c = '*' then ['\\', '2', 'a']
  else if c = '(' then ['\\', '2', '8']
  else if c = ')' then ['\\', '2', '9']
  else if c = Char.ofNat 0 then ['\\', '0', '0']
  else if c = '/' then ['\\', '2', 'f']
  else [c]

theorem replaceChar_append (c : Char) (r : List Char) (a b : List Char) :
    replaceChar c r (a ++ b) = replaceChar c r a ++ replaceChar c r b := by
  induction a with
  | nil => simp [replaceChar]
  | cons x xs ih =>
    simp only [List.cons_append, replaceChar]
    by_cases h : x = c <;> simp [h, ih]

theorem escape_append (a b : List Char) :
    escape_ldap_value (a ++ b) =
      escape_ldap_value a ++ escape_ldap_value b := by
  simp [escape_ldap_value, replaceChar_append]

theorem escape_single (c : Char) : escape_ldap_value [c] = escChar c := by
  unfold escape_ldap_value escChar
  by_cases h1 : c = '\\'
  · subst h1
    decide
  · by_cases h2 : c = '*'
    · subst h2
      decide
    · by_cases h3 : c = '('
      · subst h3
        decide
      · by_cases h4 : c = ')'
        · subst h4
          decide
        · by_cases h5 : c = Char.ofNat 0
          · subst h5
            decide
          · by_cases h6 : c = '/'
            · subst h6
              decide
            · simp [replaceChar, h1, h2, h3, h4, h5, h6]

theorem escape_eq_flatten (v : List Char) :
    escape_ldap_value v = (v.map escChar).flatten := by
  induction v with
  | nil => rfl
  | cons x xs ih =>
    calc escape_ldap_value (x :: xs)
        = escape_ldap_value ([x] ++ xs) := rfl
      _ = escape_ldap_value [x] ++ escape_ldap_value xs :=
          escape_append [x] xs
      _ = escChar x ++ (xs.map escChar).flatten := by rw [escape_single, ih]
      _ = ((x :: xs).map escChar).flatten := by simp

theorem escChar_no_special (c : Char) :
    '*' ∉ escChar c ∧ '(' ∉ escChar c ∧ ')' ∉ escChar c ∧
    Char.ofNat 0 ∉ escChar c ∧ '/' ∉ escChar c := by
  unfold escChar
  split_ifs with h1 h2 h3 h4 h5 h6 <;> try decide
  refine ⟨?_, ?_, ?_, ?_, ?_⟩ <;>
    simp only [List.mem_singleton] <;>
    intro hx
  · exact h2 hx.symm
  · exact h3 hx.symm
  · exact h4 hx.symm
  · exact h5 hx.symm
  · exact h6 hx.symm

theorem escape_no_special (v : List Char) :
    '*' ∉ escape_ldap_value v ∧ '(' ∉ escape_ldap_value v ∧
    ')' ∉ escape_ldap_value v ∧ Char.ofNat 0 ∉ escape_ldap_value v ∧
    '/' ∉ escape_ldap_value v := by
  rw [escape_eq_flatten]
  refine ⟨?_, ?_, ?_, ?_, ?_⟩ <;>
    rw [List.mem_flatten] <;>
    rintro ⟨blk, hblk, hmem⟩ <;>
    rw [List.mem_map] at hblk <;>
    obtain ⟨c, _, rfl⟩ := hblk
  · exact (escChar_no_special c).1 hmem
  · exact (escChar_no_special c).2.1 hmem
  · exact (escChar_no_special c).2.2.1 hmem
  · exact (escChar_no_special c).2.2.2.1 hmem
  · exact (escChar_no_special c).2.2.2.2 hmem

/-- C8: the LDAP search filter is built from the part of the username
before the first '@' (when '@' is present), and the escape replaces each
occurrence of the six special characters by its escape sequence (the
whole value maps characterwise through escChar), so that none of
* ( ) NUL / survives in the escaped value embedded in the filter. -/
theorem claim_C8_filter_escaping (username_attribute username : List Char) :
    (username.contains '@' = true →
      find_user_clean_username username =
        username.takeWhile (fun c => c ≠ '@')) ∧
    escape_ldap_value (find_user_clean_username username) =
      ((find_user_clean_username username).map escChar).flatten ∧
    (escChar '\\' = ['\\', '5', 'c'] ∧ escChar '*' = ['\\', '2', 'a'] ∧
      escChar '(' = ['\\', '2', '8'] ∧ escChar ')' = ['\\', '2', '9'] ∧
      escChar (Char.ofNat 0) = ['\\', '0', '0'] ∧
      escChar '/' = ['\\', '2', 'f']) ∧
    ('*' ∉ escape_ldap_value (find_user_clean_username username) ∧
      '(' ∉ escape_ldap_value (find_user_clean_username username) ∧
      ')' ∉ escape_ldap_value (find_user_clean_username username) ∧
      Char.ofNat 0 ∉ escape_ldap_value (find_user_clean_username username) ∧
      '/' ∉ escape_ldap_value (find_user_clean_username username)) ∧
    find_user_filter username_attribute username =
      '(' :: (username_attribute ++
        '=' :: (escape_ldap_value (find_user_clean_username username) ++
          [')'])) := by
  refine ⟨?_, escape_eq_flatten _, by decide, escape_no_special _, rfl⟩
  intro hc
  unfold find_user_clean_username
  rw [if_pos hc]

/-- C8 witness: the cleanup and the escaping on the concrete username
"ali*ce@corp". -/
theorem claim_C8_filter_escaping_witness :
    find_user_clean_username ("ali*ce@corp".data) =
      ("ali*ce@corp".data).takeWhile (fun c => c ≠ '@') ∧
    '*' ∉ escape_ldap_value (find_user_clean_username ("ali*ce@corp".data)) :=
  ⟨(claim_C8_filter_escaping ("uid".data) ("ali*ce@corp".data)).1
      (by decide),
    (claim_C8_filter_escaping ("uid".data) ("ali*ce@corp".data)).2.2.2.1.1⟩
